import Mathlib

/-!
Shallow embedding of the Telegraph-Image upload endpoint
(`functions/upload.js`, two variants, and a third variant in an unnamed
source file) together with proofs about its batch-upload orchestration:
pre-validation, concurrency-limit selection, retry with backoff, result
aggregation and the best-effort KV metadata indexing.

Modelling conventions:
- An uploaded `File` is its `name` and `size` (bytes, as `Nat`).
- The nondeterministic outside world (the `fetch` to the Telegram API and
  the KV `put`) enters every function as an explicit parameter: the fetch
  outcome for a file's n-th attempt is given by an oracle
  `Nat → Except String HttpResponse` (`.error` models a thrown
  network-level exception, `.ok` a response whose JSON body parsed), and
  KV behaviour is a function from the attempted put to its outcome.
- JavaScript `async` control flow is sequentialised: `Promise.all` keeps
  the order of its input array, so a batch's results are its files' results
  in order; the inter-batch / inter-op `setTimeout` pauses do not affect
  any value computed and are not modelled (backoff delays, which the spec
  talks about, ARE recorded explicitly as a list of slept milliseconds).
- JS truthiness on `x || y` and on optional JSON fields is modelled by
  explicit `Option` matches (`jsNumOrNull`, `jsStrOr`).
-/

set_option autoImplicit false

namespace TelegraphImage

/-- An uploaded file as the endpoint sees it: `name` and `size` in bytes. -/
structure UFile where
  name : String
  size : Nat
  deriving DecidableEq, Repr

/-- `10 * 1024 * 1024 * 1024` bytes: the 10 GB size ceiling from `preValidateFiles`. -/
def GB10 : Nat := 10 * 1024 * 1024 * 1024

/-- One mebibyte, the unit of the concurrency-limit thresholds. -/
def MiB : Nat := 1024 * 1024

/-- Result record of `preValidateFiles`: the `{ validFiles, errors }` object. -/
structure PreValidation where
  validFiles : List UFile
  errors : List String
  deriving DecidableEq, Repr

/-- `preValidateFiles(files)` from `functions/upload.js`: drops files larger
than 10 GB or empty, recording one error string per dropped file. -/
def preValidateFiles : List UFile → PreValidation
  | [] => ⟨[], []⟩
  | f :: fs =>
    let rest := preValidateFiles fs
    if f.size > GB10 then
      ⟨rest.validFiles, ("File too large (>10GB): " ++ f.name) :: rest.errors⟩
    else if f.size = 0 then
      ⟨rest.validFiles, ("Empty file: " ++ f.name) :: rest.errors⟩
    else
      ⟨f :: rest.validFiles, rest.errors⟩

/-- `files.reduce((sum, file) => sum + file.size, 0)`. -/
def totalSize (files : List UFile) : Nat :=
  files.foldl (fun sum f => sum + f.size) 0

/-- `totalSize / files.length` as an exact rational (file sizes are integers,
so the JS float division is faithfully abstracted by `ℚ` here). -/
def avgSize (files : List UFile) : ℚ :=
  (totalSize files : ℚ) / (files.length : ℚ)

/-- `getConcurrencyLimit(files)` from `functions/upload.js`. -/
def getConcurrencyLimit (files : List UFile) : Nat :=
  if avgSize files > (100 * MiB : ℚ) then 1
  else if avgSize files > (10 * MiB : ℚ) then 2
  else if avgSize files > (2 * MiB : ℚ) then 3
  else 4

/-- The concurrency table as the spec states it (§4.4), as a function of the
average size alone; compared against `getConcurrencyLimit`. -/
def specConcurrencyTable (avg : ℚ) : Nat :=
  if avg > (100 * MiB : ℚ) then 1
  else if avg > (10 * MiB : ℚ) then 2
  else if avg > (2 * MiB : ℚ) then 3
  else 4

/-- The slices `files.slice(i, i + n)` taken by the dispatch loop of
`processFilesConcurrently`, in order.  (`n = 0` cannot arise: the limit is
always between 1 and 4; the `[l]` escape only serves termination.) -/
def chunkList {α : Type} (n : Nat) : List α → List (List α)
  | [] => []
  | x :: xs =>
    if n = 0 then [x :: xs]
    else (x :: xs).take n :: chunkList n ((x :: xs).drop n)
termination_by l => l.length
decreasing_by
  simp only [List.length_drop, List.length_cons]
  omega

/-! ## Telegram response model and `getFileInfo` -/

/-- A thumbnail object inside a Telegram media object. -/
structure Thumb where
  file_id : String
  file_size : Option Nat
  width : Option Nat
  height : Option Nat
  deriving DecidableEq, Repr

/-- A Telegram media object (`document`, `sticker` or `video`). -/
structure Media where
  file_id : String
  width : Option Nat
  height : Option Nat
  thumbnail : Option Thumb
  deriving DecidableEq, Repr

/-- The `result` object of the Telegram envelope: which media branches are present. -/
structure TgResult where
  sticker : Option Media
  document : Option Media
  video : Option Media
  deriving DecidableEq, Repr

/-- The Telegram response envelope `{ok, result?, description?}`. -/
structure TgResponse where
  ok : Bool
  result : Option TgResult
  description : Option String
  deriving DecidableEq, Repr

/-- The `fetch` response as the code consumes it: the HTTP-level `response.ok`
and `response.status`, plus the parsed JSON body `responseData`. -/
structure HttpResponse where
  ok : Bool
  status : Nat
  data : TgResponse
  deriving DecidableEq, Repr

/-- JS `x || null` on an optional number: `undefined` and `0` are falsy. -/
def jsNumOrNull : Option Nat → Option Nat
  | some 0 => none
  | some n => some n
  | none => none

/-- JS `s || dflt` on an optional string: `undefined` and `""` are falsy. -/
def jsStrOr (o : Option String) (dflt : String) : String :=
  match o with
  | some s => if s = "" then dflt else s
  | none => dflt

/-- The normalized descriptor `getFileInfo` builds from one media branch. -/
structure FileInfo where
  fileId : String
  width : Option Nat
  height : Option Nat
  thumbnail : Option Thumb
  deriving DecidableEq, Repr

/-- `fileInfo` fields extracted from one media object (shared shape of the
three branches of `getFileInfo`). -/
def mediaInfo (m : Media) : FileInfo :=
  ⟨m.file_id, jsNumOrNull m.width, jsNumOrNull m.height, m.thumbnail⟩

/-- `getFileInfo(response)` from `functions/upload.js`: `null` unless the
envelope is `ok` with a `result` carrying a sticker, document or video branch
(checked in that order). -/
def getFileInfo (response : TgResponse) : Option FileInfo :=
  if !response.ok then none
  else
    match response.result with
    | none => none
    | some result =>
      match result.sticker with
      | some s => some (mediaInfo s)
      | none =>
        match result.document with
        | some d => some (mediaInfo d)
        | none =>
          match result.video with
          | some v => some (mediaInfo v)
          | none => none

/-- `fileName.split('.').pop().toLowerCase()`. -/
def fileExtension (fileName : String) : String :=
  ((fileName.splitOn ".").getLastD "").toLower

/-! ## Per-file upload (`processFileUpload`, main variant) -/

/-- The thumbnail part of the per-file success payload. -/
structure ThumbData where
  src : String
  width : Option Nat
  height : Option Nat
  deriving DecidableEq, Repr

/-- The `fileData` object built on a successful upload. -/
structure FileData where
  src : String
  fileName : String
  width : Option Nat
  height : Option Nat
  thumbnail : Option ThumbData
  deriving DecidableEq, Repr

/-- The KV `put` a deferred `kvOperation` closure would perform, by its data:
key and the metadata fields that vary per file. -/
structure KVPut where
  key : String
  fileName : String
  fileSize : Nat
  deriving DecidableEq, Repr

/-- `processFileUpload(uploadFile, env, request)` from `functions/upload.js`
(main variant).  The fetch outcome is passed in (`.error` = the network call
or JSON parse threw); the result is `.ok` with the `{data, kvOperation}`
payload of the `{success: true, ...}` record, or `.error` with the message of
the exception thrown. -/
def processFileUpload (uploadFile : UFile) (requestOrigin : String)
    (fetchResult : Except String HttpResponse) :
    Except String (FileData × KVPut) :=
  match fetchResult with
  | .error e => .error e
  | .ok response =>
    if !response.ok then
      .error ("Telegram API error: " ++ jsStrOr response.data.description "Unknown error")
    else
      match getFileInfo response.data with
      | none => .error ("Failed to get file info for: " ++ uploadFile.name)
      | some fileInfo =>
        let fileExt := fileExtension uploadFile.name
        let fileData : FileData :=
          { src := requestOrigin ++ "/file/" ++ fileInfo.fileId ++ "." ++ fileExt
            fileName := uploadFile.name
            width := fileInfo.width
            height := fileInfo.height
            thumbnail := fileInfo.thumbnail.map fun t =>
              { src := requestOrigin ++ "/file/" ++ t.file_id ++ "." ++ fileExt
                width := t.width
                height := t.height } }
        let kvOperation : KVPut :=
          { key := fileInfo.fileId ++ "." ++ fileExt
            fileName := uploadFile.name
            fileSize := uploadFile.size }
        .ok (fileData, kvOperation)

/-! ## Retry wrapper (`processFileUploadWithRetry`) -/

/-- The two shapes of value a settled per-file task yields:
`{success: true, data, kvOperation}` or `{success: false, error, fileName}`. -/
inductive UploadResultJS (α : Type) where
  | success (r : α)
  | failure (error : String) (fileName : String)
  deriving DecidableEq, Repr

/-- `Math.min(1000 * Math.pow(2, attempt - 1), 3000)`: the backoff slept
after a failed attempt (the same formula for every failure cause). -/
def retryDelay (attempt : Nat) : Nat :=
  min (1000 * 2 ^ (attempt - 1)) 3000

/-- The `for (attempt = 1; attempt <= maxRetries; attempt++)` loop of
`processFileUploadWithRetry`, with the per-attempt behaviour given by
`oracle`.  `fuel` counts the loop iterations still allowed
(`maxRetries - attempt + 1` at entry); `none` models the `undefined` the JS
function returns if the loop body never runs.  The second component records
the backoff delays slept, in order. -/
def retryAux {α : Type} (name : String) (oracle : Nat → Except String α)
    (maxRetries : Nat) : Nat → Nat → Option (UploadResultJS α) × List Nat
  | _, 0 => (none, [])
  | attempt, fuel + 1 =>
    if attempt ≤ maxRetries then
      match oracle attempt with
      | .ok r => (some (.success r), [])
      | .error e =>
        if attempt = maxRetries then (some (.failure e name), [])
        else
          let rest := retryAux name oracle maxRetries (attempt + 1) fuel
          (rest.1, retryDelay attempt :: rest.2)
    else (none, [])

/-- `processFileUploadWithRetry(uploadFile, env, request, maxRetries = 2)`:
run the per-attempt task `oracle` from attempt 1, up to `maxRetries`
attempts. -/
def processFileUploadWithRetry {α : Type} (uploadFile : UFile)
    (oracle : Nat → Except String α) (maxRetries : Nat := 2) :
    Option (UploadResultJS α) × List Nat :=
  retryAux uploadFile.name oracle maxRetries 1 maxRetries

/-- The complete per-file task of the main variant: `processFileUpload`
behind the retry wrapper, with the default `maxRetries = 2` used at the only
call site, driven by the file's attempt-indexed fetch oracle. -/
def fileTask (uploadFile : UFile) (requestOrigin : String)
    (fetch : Nat → Except String HttpResponse) :
    Option (UploadResultJS (FileData × KVPut)) × List Nat :=
  processFileUploadWithRetry uploadFile
    (fun n => processFileUpload uploadFile requestOrigin (fetch n)) 2

/-! ## Batch orchestration and aggregation (`functions/upload.js`, main variant) -/

/-- `processFilesConcurrently(files, env, request)`: slice the file list by
the computed concurrency limit and settle every slice with `Promise.all`
(which keeps the slice's order), concatenating the per-slice result arrays.
The 100 ms inter-slice pause affects no computed value and is not modelled. -/
def processFilesConcurrently (files : List UFile) (requestOrigin : String)
    (fetch : UFile → Nat → Except String HttpResponse) :
    List (Option (UploadResultJS (FileData × KVPut))) :=
  ((chunkList (getConcurrencyLimit files) files).map
    (fun batch => batch.map (fun f => (fileTask f requestOrigin (fetch f)).1))).flatten

/-- Result of `separateResultsAndKVOps`: the two arrays it fills. -/
structure Separated where
  successfulUploads : List FileData
  kvOperations : List KVPut
  deriving DecidableEq, Repr

/-- `separateResultsAndKVOps(results, env)`: keep `result.data` of every
truthy `{success: true}` result, and queue its `kvOperation` when the
`env.img_url` binding is present. -/
def separateResultsAndKVOps :
    List (Option (UploadResultJS (FileData × KVPut))) → Bool → Separated
  | [], _ => ⟨[], []⟩
  | r :: rs, imgUrlPresent =>
    let rest := separateResultsAndKVOps rs imgUrlPresent
    match r with
    | some (.success (data, kvOp)) =>
      ⟨data :: rest.successfulUploads,
       if imgUrlPresent then kvOp :: rest.kvOperations else rest.kvOperations⟩
    | _ => rest

/-- The KV store, as the multiset of entries written, in write order. -/
abbrev KVStore := List KVPut

/-- `batchKVOperations(env, kvOperations)`: run every queued operation, each
behind its own `try/catch`, so a failing `put` (second component `false`)
is only logged and writes nothing.  The slicing in groups of 5 and the 50 ms
pauses regroup the same sequence of independent writes and are not modelled
separately. -/
def batchKVOperations (store : KVStore) (ops : List (KVPut × Bool)) : KVStore :=
  ops.foldl (fun st op => if op.2 then st ++ [op.1] else st) store

/-- The JSON body of the endpoint's response: the 200-body is the array of
`{src, thumbnail}` projections, the 500-body is `{error, details}`. -/
inductive RespBody where
  | success (items : List (String × Option ThumbData))
  | error (message : String) (details : String)
  deriving DecidableEq, Repr

/-- An HTTP response: status code and JSON body (headers carry no claim). -/
structure HttpOut where
  status : Nat
  body : RespBody
  deriving DecidableEq, Repr

/-- `errors.join(', ')`. -/
def joinComma : List String → String
  | [] => ""
  | [x] => x
  | x :: xs => x ++ ", " ++ joinComma xs

/-- `onRequestPost(context)` from `functions/upload.js` (main variant).

`parse` is the outcome of `request.formData()` + middleware + file-field
extraction (`.error` = a request-level exception, `.ok files` = the extracted
file list); `fetch` gives every file's attempt-indexed upstream behaviour;
`imgUrl` is the KV binding — absent, or present with each put's success;
`store` is the KV store before the request.  Returns the HTTP response and
the KV store afterwards. -/
def onRequestPost (parse : Except String (List UFile)) (requestOrigin : String)
    (fetch : UFile → Nat → Except String HttpResponse)
    (imgUrl : Option (KVPut → Bool)) (store : KVStore) : HttpOut × KVStore :=
  match parse with
  | .error e => (⟨500, .error e "No additional details"⟩, store)
  | .ok files =>
    if files.length = 0 then
      (⟨500, .error "No files uploaded" "No additional details"⟩, store)
    else
      let pv := preValidateFiles files
      if pv.validFiles.length = 0 then
        (⟨500, .error ("No valid files to upload: " ++ joinComma pv.errors)
               "No additional details"⟩, store)
      else
        let results := processFilesConcurrently pv.validFiles requestOrigin fetch
        let sep := separateResultsAndKVOps results imgUrl.isSome
        let newStore :=
          match imgUrl with
          | none => store
          | some putOk =>
            batchKVOperations store (sep.kvOperations.map (fun p => (p, putOk p)))
        (⟨200, .success (sep.successfulUploads.map (fun d => (d.src, d.thumbnail)))⟩,
         newStore)

/-! ## Variant in the unnamed source file (`processFileUpload`, catch-all
returning `null`, KV write inline before the return value) -/

/-- `processFileUpload(uploadFile, env, request)` from the unnamed source
file: the whole body is one `try/catch` returning `null` on any throw; the
KV `put` (when the binding exists) runs inline before the success value is
built, so a rejected `put` turns the whole result into `null`.  Returns the
settled value and the list of KV entries actually written. -/
def processFileUpload_v0 (uploadFile : UFile) (requestOrigin : String)
    (fetchResult : Except String HttpResponse)
    (imgUrl : Option (KVPut → Except String Unit)) :
    Option FileData × List KVPut :=
  match fetchResult with
  | .error _ => (none, [])
  | .ok response =>
    if !response.ok then (none, [])
    else
      match getFileInfo response.data with
      | none => (none, [])
      | some fileInfo =>
        let fileExt := fileExtension uploadFile.name
        let kvPut : KVPut :=
          { key := fileInfo.fileId ++ "." ++ fileExt
            fileName := uploadFile.name
            fileSize := uploadFile.size }
        let value : FileData :=
          { src := requestOrigin ++ "/file/" ++ fileInfo.fileId ++ "." ++ fileExt
            fileName := uploadFile.name
            width := fileInfo.width
            height := fileInfo.height
            thumbnail := fileInfo.thumbnail.map fun t =>
              { src := requestOrigin ++ "/file/" ++ t.file_id ++ "." ++ fileExt
                width := t.width
                height := t.height } }
        match imgUrl with
        | none => (some value, [])
        | some put =>
          match put kvPut with
          | .error _ => (none, [])
          | .ok _ => (some value, [kvPut])

/-! ## Second variant in `functions/upload.js` (`uploadFileToTelegram`) -/

/-- `getFileId(response)` of the second variant: only the `document` branch
is recognized (the others are commented out). -/
def getFileId (response : TgResponse) : Option String :=
  if !response.ok then none
  else
    match response.result with
    | none => none
    | some result =>
      match result.document with
      | some d => some d.file_id
      | none => none

/-- `uploadFileToTelegram(uploadFile, env)` of the second variant: catch-all
returning `null`; KV write inline, guarded by `if (env.img_url)`.  Returns
the settled `{src}` value (by its `src` string) and the KV entries written. -/
def uploadFileToTelegram (uploadFile : UFile)
    (fetchResult : Except String HttpResponse)
    (imgUrl : Option (KVPut → Except String Unit)) :
    Option String × List KVPut :=
  match fetchResult with
  | .error _ => (none, [])
  | .ok response =>
    if !response.ok then (none, [])
    else
      match getFileId response.data with
      | none => (none, [])
      | some fileId =>
        let fileExt := fileExtension uploadFile.name
        let kvPut : KVPut :=
          { key := fileId ++ "." ++ fileExt
            fileName := uploadFile.name
            fileSize := uploadFile.size }
        let value : String := "/file/" ++ fileId ++ "." ++ fileExt
        match imgUrl with
        | none => (some value, [])
        | some put =>
          match put kvPut with
          | .error _ => (none, [])
          | .ok _ => (some value, [kvPut])

/-! ## Outcome predicates and counts -/

/-- A settled result is a `{success: true}` record (`result && result.success`). -/
def isSuccessOutcome {α : Type} : Option (UploadResultJS α) → Bool
  | some (.success _) => true
  | _ => false

/-- A settled result is a `{success: false}` record. -/
def isFailureOutcome {α : Type} : Option (UploadResultJS α) → Bool
  | some (.failure _ _) => true
  | _ => false

/-- Number of per-file successes in a result array. -/
def successCount {α : Type} (results : List (Option (UploadResultJS α))) : Nat :=
  (results.filter isSuccessOutcome).length

/-- Number of per-file failures in a result array. -/
def failCount {α : Type} (results : List (Option (UploadResultJS α))) : Nat :=
  (results.filter isFailureOutcome).length

/-! ## Concrete inputs used in witnesses and counterexamples -/

/-- A small valid upload. -/
def file0 : UFile := ⟨"a.png", 5⟩

/-- A fetch response with HTTP status 429 (Too Many Requests). -/
def resp429 : HttpResponse := ⟨false, 429, ⟨false, none, some "Too Many Requests"⟩⟩

/-- A fetch response with HTTP status 503 (Service Unavailable). -/
def resp503 : HttpResponse := ⟨false, 503, ⟨false, none, some "Service Unavailable"⟩⟩

/-- A document media object as Telegram returns it. -/
def docMedia : Media := ⟨"AgACFileId", some 800, some 600, none⟩

/-- A successful fetch response whose envelope carries a `document` branch. -/
def respOkDoc : HttpResponse := ⟨true, 200, ⟨true, some ⟨none, some docMedia, none⟩, none⟩⟩

/-- A fetch oracle returning HTTP 503 on attempts 1 and 2 and HTTP 200 on
every later attempt. -/
def fetch503then200 : Nat → Except String HttpResponse :=
  fun n => if n ≤ 2 then .ok resp503 else .ok respOkDoc

/-- A file one byte over the 10 GB ceiling. -/
def bigFile : UFile := ⟨"big.bin", GB10 + 1⟩

/-- A single file of 150 MiB (batch average 150 MiB). -/
def avg150File : UFile := ⟨"avg150.bin", 150 * MiB⟩

/-- A single file of 1 MiB (batch average 1 MiB). -/
def avg1File : UFile := ⟨"avg1.bin", MiB⟩

/-! ## Helper lemmas -/

theorem chunkList_flatten {α : Type} (n : Nat) (l : List α) :
    (chunkList n l).flatten = l := by
  induction l using chunkList.induct n with
  | case1 => simp [chunkList]
  | case2 x xs hn =>
    simp [chunkList, hn]
  | case3 x xs hn ih =>
    rw [chunkList]
    simp only [if_neg hn, List.flatten_cons, ih]
    exact List.take_append_drop n (x :: xs)

/-- The dispatch slicing is order- and content-preserving: the orchestrator's
result array is the input files' settled task results, in input order, for
any concurrency limit. -/
theorem processFilesConcurrently_eq_map (files : List UFile) (requestOrigin : String)
    (fetch : UFile → Nat → Except String HttpResponse) :
    processFilesConcurrently files requestOrigin fetch =
      files.map (fun f => (fileTask f requestOrigin (fetch f)).1) := by
  rw [processFilesConcurrently, ← List.map_flatten, chunkList_flatten]

/-- The retry loop always settles (to a success, or to the failure record of
the last attempt) as long as at least one iteration may run. -/
theorem retryAux_total {α : Type} (name : String) (oracle : Nat → Except String α)
    (maxRetries : Nat) :
    ∀ fuel attempt, 1 ≤ fuel → attempt + fuel = maxRetries + 1 →
      ∃ out, (retryAux name oracle maxRetries attempt fuel).1 = some out ∧
        ((∃ r, out = UploadResultJS.success r) ∨
          ∃ e, oracle maxRetries = .error e ∧ out = UploadResultJS.failure e name)
  | 0, _, h1, _ => absurd h1 (by omega)
  | fuel + 1, attempt, _, h2 => by
    have hle : attempt ≤ maxRetries := by omega
    simp only [retryAux, if_pos hle]
    cases ho : oracle attempt with
    | ok r => exact ⟨.success r, rfl, Or.inl ⟨r, rfl⟩⟩
    | error e =>
      by_cases heq : attempt = maxRetries
      · subst heq
        simp only [if_pos rfl]
        exact ⟨.failure e name, rfl, Or.inr ⟨e, ho, rfl⟩⟩
      · simp only [if_neg heq]
        have h1' : 1 ≤ fuel := by omega
        have h2' : (attempt + 1) + fuel = maxRetries + 1 := by omega
        exact retryAux_total name oracle maxRetries fuel (attempt + 1) h1' h2'

/-- The delays slept by the retry loop are `retryDelay` at the consecutive
attempt numbers, starting at the entry attempt. -/
theorem retryAux_delays {α : Type} (name : String) (oracle : Nat → Except String α)
    (maxRetries : Nat) :
    ∀ fuel attempt, ∃ m, (retryAux name oracle maxRetries attempt fuel).2 =
      (List.range m).map (fun k => retryDelay (attempt + k))
  | 0, attempt => ⟨0, by simp [retryAux]⟩
  | fuel + 1, attempt => by
    by_cases hle : attempt ≤ maxRetries
    · simp only [retryAux, if_pos hle]
      cases ho : oracle attempt with
      | ok r => exact ⟨0, by simp⟩
      | error e =>
        by_cases heq : attempt = maxRetries
        · exact ⟨0, by simp [if_pos heq]⟩
        · simp only [if_neg heq]
          obtain ⟨m, hm⟩ := retryAux_delays name oracle maxRetries fuel (attempt + 1)
          refine ⟨m + 1, ?_⟩
          simp only [hm, List.range_succ_eq_map, List.map_cons, List.map_map,
            Nat.add_zero, List.cons.injEq, true_and]
          refine List.map_congr_left fun x _ => ?_
          simp only [Function.comp_apply]
          congr 1
          omega
    · exact ⟨0, by simp [retryAux, if_neg hle]⟩

/-- Every settled result is `some`, so successes and failures partition the
result array. -/
theorem count_partition {α : Type} (results : List (Option (UploadResultJS α)))
    (h : ∀ r ∈ results, r.isSome) :
    successCount results + failCount results = results.length := by
  induction results with
  | nil => rfl
  | cons r rs ih =>
    have hr : r.isSome := h r (List.mem_cons_self _ _)
    have hrs : ∀ x ∈ rs, x.isSome := fun x hx => h x (List.mem_cons_of_mem _ hx)
    have ih' := ih hrs
    match r, hr with
    | some (.success v), _ =>
      simp [successCount, failCount, List.filter_cons, isSuccessOutcome,
        isFailureOutcome] at *
      omega
    | some (.failure e fn), _ =>
      simp [successCount, failCount, List.filter_cons, isSuccessOutcome,
        isFailureOutcome] at *
      omega

/-- The per-file task of the main variant always settles (`maxRetries = 2`). -/
theorem fileTask_isSome (f : UFile) (requestOrigin : String)
    (fetch : Nat → Except String HttpResponse) :
    ((fileTask f requestOrigin fetch).1).isSome := by
  obtain ⟨out, hout, -⟩ :=
    retryAux_total f.name (fun n => processFileUpload f requestOrigin (fetch n)) 2 2 1
      (by omega) (by omega)
  simp [fileTask, processFileUploadWithRetry, hout]

/-- Which results are kept as successes does not depend on the KV binding. -/
theorem separate_successfulUploads_indep
    (results : List (Option (UploadResultJS (FileData × KVPut)))) (b1 b2 : Bool) :
    (separateResultsAndKVOps results b1).successfulUploads =
      (separateResultsAndKVOps results b2).successfulUploads := by
  induction results with
  | nil => rfl
  | cons r rs ih =>
    cases r with
    | none => simpa [separateResultsAndKVOps] using ih
    | some v =>
      cases v with
      | success p =>
        cases p
        simp [separateResultsAndKVOps, ih]
      | failure e fn => simpa [separateResultsAndKVOps] using ih

/-- A response whose envelope is not ok, or carries no recognized media
branch, makes `processFileUpload` throw. -/
theorem processFileUpload_error_of_bad (uploadFile : UFile) (requestOrigin : String)
    (resp : HttpResponse)
    (h : resp.data.ok = false ∨ getFileInfo resp.data = none) :
    ∃ e, processFileUpload uploadFile requestOrigin (.ok resp) = .error e := by
  have hinfo : getFileInfo resp.data = none := by
    rcases h with h | h
    · simp [getFileInfo, h]
    · exact h
  cases hok : resp.ok with
  | false =>
    refine ⟨"Telegram API error: " ++ jsStrOr resp.data.description "Unknown error", ?_⟩
    simp [processFileUpload, hok]
  | true =>
    refine ⟨"Failed to get file info for: " ++ uploadFile.name, ?_⟩
    simp [processFileUpload, hok, hinfo]

/-- With the default `maxRetries = 2`, two failing attempts settle the task
to the second attempt's failure record after a single 1000 ms backoff. -/
theorem fileTask_failure_of_two_errors (uploadFile : UFile) (requestOrigin : String)
    (fetch : Nat → Except String HttpResponse) (e1 e2 : String)
    (h1 : processFileUpload uploadFile requestOrigin (fetch 1) = .error e1)
    (h2 : processFileUpload uploadFile requestOrigin (fetch 2) = .error e2) :
    fileTask uploadFile requestOrigin fetch =
      (some (.failure e2 uploadFile.name), [1000]) := by
  simp [fileTask, processFileUploadWithRetry, retryAux, h1, h2, retryDelay]

/-- Every file that survives pre-validation has a positive size of at most
10 GB. -/
theorem preValidateFiles_valid_sizes (files : List UFile) :
    ∀ f ∈ (preValidateFiles files).validFiles, f.size ≤ GB10 ∧ f.size ≠ 0 := by
  induction files with
  | nil =>
    intro f hf
    simp [preValidateFiles] at hf
  | cons x xs ih =>
    intro f hf
    simp only [preValidateFiles] at hf
    split at hf
    · exact ih f hf
    · split at hf
      · exact ih f hf
      · rcases List.mem_cons.mp hf with rfl | hf'
        · rename_i hgb hz
          simp only [gt_iff_lt, not_lt] at hgb
          exact ⟨hgb, hz⟩
        · exact ih f hf'

/-- A file over 10 GB, or empty, leaves its size-related message in the
pre-validation error list. -/
theorem preValidateFiles_error_mem (files : List UFile) (f : UFile) (hmem : f ∈ files)
    (hbad : GB10 < f.size ∨ f.size = 0) :
    ("File too large (>10GB): " ++ f.name) ∈ (preValidateFiles files).errors ∨
    ("Empty file: " ++ f.name) ∈ (preValidateFiles files).errors := by
  induction files with
  | nil => simp at hmem
  | cons x xs ih =>
    rcases List.mem_cons.mp hmem with rfl | hf
    · rcases hbad with hb | hb
      · left
        simp only [preValidateFiles, if_pos (show f.size > GB10 from hb)]
        exact List.mem_cons_self _ _
      · right
        have hnb : ¬ f.size > GB10 := by omega
        simp only [preValidateFiles, if_neg hnb, if_pos hb]
        exact List.mem_cons_self _ _
    · have ihm := ih hf
      simp only [preValidateFiles]
      split
      · rcases ihm with hl | hr
        · exact Or.inl (List.mem_cons_of_mem _ hl)
        · exact Or.inr (List.mem_cons_of_mem _ hr)
      · split
        · rcases ihm with hl | hr
          · exact Or.inl (List.mem_cons_of_mem _ hl)
          · exact Or.inr (List.mem_cons_of_mem _ hr)
        · exact ihm

/-! ## Claim theorems -/

/-- C1: for every non-empty batch, the orchestrator settles exactly one
outcome per input file — the result array is the files' task results in input
order, its length equals the number of files, and successes plus failures
account for every file. -/
theorem processFilesConcurrently_outcome_partition (files : List UFile)
    (requestOrigin : String) (fetch : UFile → Nat → Except String HttpResponse)
    (h : files ≠ []) :
    processFilesConcurrently files requestOrigin fetch =
      files.map (fun f => (fileTask f requestOrigin (fetch f)).1) ∧
    (processFilesConcurrently files requestOrigin fetch).length = files.length ∧
    successCount (processFilesConcurrently files requestOrigin fetch) +
      failCount (processFilesConcurrently files requestOrigin fetch) = files.length := by
  refine ⟨processFilesConcurrently_eq_map files requestOrigin fetch, ?_, ?_⟩
  · rw [processFilesConcurrently_eq_map]
    simp
  · rw [processFilesConcurrently_eq_map, count_partition]
    · simp
    · intro r hr
      simp only [List.mem_map] at hr
      obtain ⟨f, -, rfl⟩ := hr
      exact fileTask_isSome f requestOrigin (fetch f)

/-- C1 witness: the invariant at a concrete one-file batch whose upload fails. -/
theorem processFilesConcurrently_outcome_partition_witness :
    ([file0] : List UFile) ≠ [] ∧
    (processFilesConcurrently [file0] "https://example.com" (fun _ _ => .ok resp503) =
      [file0].map
        (fun f => (fileTask f "https://example.com" ((fun _ _ => .ok resp503) f)).1) ∧
    (processFilesConcurrently [file0] "https://example.com"
        (fun _ _ => .ok resp503)).length = [file0].length ∧
    successCount (processFilesConcurrently [file0] "https://example.com"
        (fun _ _ => .ok resp503)) +
      failCount (processFilesConcurrently [file0] "https://example.com"
        (fun _ _ => .ok resp503)) = [file0].length) :=
  ⟨List.cons_ne_nil _ _,
   processFilesConcurrently_outcome_partition [file0] "https://example.com"
     (fun _ _ => .ok resp503) (List.cons_ne_nil _ _)⟩

/-- C2 counterexample: in the unnamed-file variant, a step failure — here a
throwing fetch, and likewise a non-ok HTTP response — settles the per-file
task to `null`: a result that is not a Failure record and carries neither the
file's name nor an error message. -/
theorem processFileUpload_v0_null_counterexample :
    processFileUpload_v0 file0 "https://example.com" (.error "network error") none =
      (none, []) ∧
    processFileUpload_v0 file0 "https://example.com" (.ok resp503) none =
      (none, []) :=
  ⟨rfl, rfl⟩

/-- C2 amended: no exception escapes the per-file task boundary in either
cited variant, but the settled failure shapes differ.  In the main variant
the retry wrapper always returns a record — a success, or a
`{success: false}` failure carrying the file's name and the final attempt's
error message.  In the unnamed-file variant any step failure (here: a
throwing fetch) settles to `null`, a result carrying neither field. -/
theorem processFileUploadWithRetry_no_escape {α : Type} (uploadFile : UFile)
    (oracle : Nat → Except String α) (maxRetries : Nat) (requestOrigin : String)
    (e : String) (imgUrl : Option (KVPut → Except String Unit))
    (h : 1 ≤ maxRetries) :
    (∃ out, (processFileUploadWithRetry uploadFile oracle maxRetries).1 = some out ∧
      ((∃ r, out = UploadResultJS.success r) ∨
        ∃ e2, oracle maxRetries = .error e2 ∧
          out = UploadResultJS.failure e2 uploadFile.name)) ∧
    processFileUpload_v0 uploadFile requestOrigin (.error e) imgUrl = (none, []) :=
  ⟨retryAux_total uploadFile.name oracle maxRetries maxRetries 1 h (by omega), rfl⟩

/-- C2 witness: a concrete always-throwing task — the main variant settles to
the failure record, the unnamed-file variant to `null`. -/
theorem processFileUploadWithRetry_no_escape_witness :
    1 ≤ 2 ∧
    ((∃ out, (processFileUploadWithRetry file0
        (fun _ => (.error "network error" : Except String Unit)) 2).1 = some out ∧
      ((∃ r, out = UploadResultJS.success r) ∨
        ∃ e2, (fun _ => (.error "network error" : Except String Unit)) 2 = .error e2 ∧
          out = UploadResultJS.failure e2 file0.name)) ∧
    processFileUpload_v0 file0 "https://example.com" (.error "network error") none =
      (none, [])) :=
  ⟨by decide,
   processFileUploadWithRetry_no_escape file0
     (fun _ => (.error "network error" : Except String Unit)) 2 "https://example.com"
     "network error" none (by decide)⟩

/-- C4 counterexample: after an upstream HTTP 429 on attempt 1, the code
sleeps 1000 ms before attempt 2 — not `min(1000 * 2^1, 30000) = 2000` ms as
the claim states. -/
theorem retry429_delay_counterexample :
    (fileTask file0 "https://example.com" (fun _ => .ok resp429)).2 = [1000] ∧
    (1000 : Nat) ≠ min (1000 * 2 ^ 1) 30000 :=
  ⟨rfl, by decide⟩

/-- C4 amended: after any failed attempt n (the code does not branch on the
status, so also after a 429) the delay before attempt n+1 is
`min(1000 * 2^(n-1), 3000)` ms: a run's delay sequence is exactly that
formula at n = 1, 2, …, and after attempt 1 the delay is 1000 ms. -/
theorem processFileUploadWithRetry_backoff {α : Type} (uploadFile : UFile)
    (oracle : Nat → Except String α) (maxRetries : Nat) :
    (∃ m, (processFileUploadWithRetry uploadFile oracle maxRetries).2 =
      (List.range m).map (fun k => min (1000 * 2 ^ k) 3000)) ∧
    retryDelay 1 = 1000 := by
  constructor
  · obtain ⟨m, hm⟩ := retryAux_delays uploadFile.name oracle maxRetries maxRetries 1
    refine ⟨m, ?_⟩
    rw [processFileUploadWithRetry, hm]
    refine List.map_congr_left fun x _ => ?_
    simp [retryDelay]
  · norm_num [retryDelay]

/-- C5 counterexample: with upstream HTTP 503 on attempts 1 and 2 and HTTP 200
from attempt 3 on, the task stops at `maxRetries = 2`: it retries once, after
a single 1000 ms delay, and settles as a Failure — not twice with 500 ms and
1000 ms delays ending in a Success. -/
theorem retry503_counterexample :
    fileTask file0 "https://example.com" fetch503then200 =
      (some (.failure "Telegram API error: Service Unavailable" "a.png"), [1000]) ∧
    isSuccessOutcome (fileTask file0 "https://example.com" fetch503then200).1 = false ∧
    ([1000] : List Nat) ≠ [500, 1000] :=
  ⟨rfl, rfl, by decide⟩

/-- C5 amended: a file whose upstream call fails on the first two attempts is
retried exactly once, with a 1000 ms delay before attempt 2, and settles as a
Failure — the default cap of 2 attempts means a third attempt never runs. -/
theorem fileTask_fails_after_two_upstream_errors (uploadFile : UFile)
    (requestOrigin : String) (fetch : Nat → Except String HttpResponse)
    (h1 : ∃ e, processFileUpload uploadFile requestOrigin (fetch 1) = .error e)
    (h2 : ∃ e, processFileUpload uploadFile requestOrigin (fetch 2) = .error e) :
    ∃ e, fileTask uploadFile requestOrigin fetch =
      (some (UploadResultJS.failure e uploadFile.name), [1000]) := by
  obtain ⟨e1, h1⟩ := h1
  obtain ⟨e2, h2⟩ := h2
  exact ⟨e2, fileTask_failure_of_two_errors uploadFile requestOrigin fetch e1 e2 h1 h2⟩

/-- C5 amended witness: the concrete 503/503/200 oracle. -/
theorem fileTask_fails_after_two_upstream_errors_witness :
    ((∃ e, processFileUpload file0 "https://example.com" (fetch503then200 1) = .error e) ∧
     (∃ e, processFileUpload file0 "https://example.com" (fetch503then200 2) = .error e)) ∧
    ∃ e, fileTask file0 "https://example.com" fetch503then200 =
      (some (UploadResultJS.failure e file0.name), [1000]) :=
  ⟨⟨⟨"Telegram API error: Service Unavailable", rfl⟩,
    ⟨"Telegram API error: Service Unavailable", rfl⟩⟩,
   fileTask_fails_after_two_upstream_errors file0 "https://example.com" fetch503then200
     ⟨"Telegram API error: Service Unavailable", rfl⟩
     ⟨"Telegram API error: Service Unavailable", rfl⟩⟩

/-- C3 counterexample: a parsed request with one valid file whose two upload
attempts both fail still gets HTTP 200 — with an empty success array and no
mention of the failed file's name or reason anywhere in the response. -/
theorem onRequestPost_200_without_success :
    onRequestPost (.ok [file0]) "https://example.com" (fun _ _ => .ok resp503)
        none [] = (⟨200, .success []⟩, []) ∧
    successCount (processFilesConcurrently [file0] "https://example.com"
        (fun _ _ => .ok resp503)) = 0 ∧
    failCount (processFilesConcurrently [file0] "https://example.com"
        (fun _ _ => .ok resp503)) = 1 := by
  have hconc : processFilesConcurrently [file0] "https://example.com"
      (fun _ _ => .ok resp503) =
      [some (.failure "Telegram API error: Service Unavailable" "a.png")] := by
    rw [processFilesConcurrently_eq_map]
    rfl
  have hval : preValidateFiles [file0] = ⟨[file0], []⟩ := by
    norm_num [preValidateFiles, GB10, file0]
  refine ⟨?_, ?_, ?_⟩
  · simp only [onRequestPost, hval, hconc]
    norm_num [separateResultsAndKVOps]
  · rw [hconc]
    rfl
  · rw [hconc]
    rfl

/-- C3 amended: the endpoint returns 200 exactly when the body parsed, the
file list is non-empty and at least one file passes pre-validation — whether
or not any upload succeeded; every other case returns 500, and failed files
are never enumerated (the 200 body lists only the successful uploads). -/
theorem onRequestPost_status_iff (parse : Except String (List UFile))
    (requestOrigin : String) (fetch : UFile → Nat → Except String HttpResponse)
    (imgUrl : Option (KVPut → Bool)) (store : KVStore) :
    ((onRequestPost parse requestOrigin fetch imgUrl store).1.status = 200 ↔
      ∃ files, parse = .ok files ∧ files ≠ [] ∧
        (preValidateFiles files).validFiles ≠ []) ∧
    ((onRequestPost parse requestOrigin fetch imgUrl store).1.status = 200 ∨
     (onRequestPost parse requestOrigin fetch imgUrl store).1.status = 500) := by
  cases parse with
  | error e => simp [onRequestPost]
  | ok files =>
    by_cases h0 : files.length = 0
    · rw [List.length_eq_zero] at h0
      subst h0
      simp [onRequestPost]
    · by_cases h1 : (preValidateFiles files).validFiles.length = 0
      · have h0' : files ≠ [] := fun hh => h0 (by simp [hh])
        rw [List.length_eq_zero] at h1
        simp [onRequestPost, h0, h1, h0']
      · have h0' : files ≠ [] := fun hh => h0 (by simp [hh])
        have h1' : (preValidateFiles files).validFiles ≠ [] := fun hh => h1 (by simp [hh])
        simp [onRequestPost, h0, h1, h0', h1']

/-- C6 counterexample (unnamed-file variant): the upstream upload succeeds but
the inline KV `put` rejects; the catch-all returns `null`, so the file drops
out of the successful list — the KV failure does change the file's outcome. -/
theorem kv_failure_drops_success_v0 :
    (processFileUpload_v0 file0 "https://example.com" (.ok respOkDoc)
        (some (fun _ => .error "KV write failed"))).1 = none ∧
    ((processFileUpload_v0 file0 "https://example.com" (.ok respOkDoc) none).1).isSome
      = true :=
  ⟨rfl, rfl⟩

/-- C6 amended: in the main variant, whose KV operations are deferred and run
batched behind per-operation catches after the outcomes are settled, the HTTP
response — hence every successful file's presence in it — is identical
whatever subset of KV writes fails; only the KV store differs.  (In the
unnamed-file variant the inline KV write is not isolated: its rejection turns
that file's result into `null`.) -/
theorem onRequestPost_response_kv_independent (parse : Except String (List UFile))
    (requestOrigin : String) (fetch : UFile → Nat → Except String HttpResponse)
    (store : KVStore) (putOk : KVPut → Bool) :
    (onRequestPost parse requestOrigin fetch (some putOk) store).1 =
      (onRequestPost parse requestOrigin fetch (some (fun _ => true)) store).1 := by
  cases parse with
  | error e => rfl
  | ok files =>
    simp only [onRequestPost]
    split_ifs <;> rfl

/-- C7: pre-validation rejects every file over 10 GB, and every zero-byte
file, with a size-related per-file message; such a file never enters the
valid list, the only list the orchestrator dispatches to the upstream call. -/
theorem preValidateFiles_rejects_bad_sizes (files : List UFile) (f : UFile)
    (hmem : f ∈ files) (hbad : GB10 < f.size ∨ f.size = 0) :
    f ∉ (preValidateFiles files).validFiles ∧
    (("File too large (>10GB): " ++ f.name) ∈ (preValidateFiles files).errors ∨
     ("Empty file: " ++ f.name) ∈ (preValidateFiles files).errors) := by
  constructor
  · intro hin
    have hsz := preValidateFiles_valid_sizes files f hin
    omega
  · exact preValidateFiles_error_mem files f hmem hbad

/-- C7 witness: a file one byte over the ceiling, alongside a valid file. -/
theorem preValidateFiles_rejects_bad_sizes_witness :
    (bigFile ∈ [bigFile, file0] ∧ (GB10 < bigFile.size ∨ bigFile.size = 0)) ∧
    (bigFile ∉ (preValidateFiles [bigFile, file0]).validFiles ∧
     (("File too large (>10GB): " ++ bigFile.name) ∈
        (preValidateFiles [bigFile, file0]).errors ∨
      ("Empty file: " ++ bigFile.name) ∈
        (preValidateFiles [bigFile, file0]).errors)) :=
  ⟨⟨List.mem_cons_self _ _, Or.inl (by decide)⟩,
   preValidateFiles_rejects_bad_sizes [bigFile, file0] bigFile
     (List.mem_cons_self _ _) (Or.inl (by decide))⟩

/-- C8: for every non-empty batch the computed concurrency limit is exactly
the spec's table applied to the batch's average file size; in particular a
150 MiB average gives limit 1 and a 1 MiB average gives limit 4. -/
theorem getConcurrencyLimit_matches_table (files : List UFile) (h : files ≠ []) :
    getConcurrencyLimit files = specConcurrencyTable (avgSize files) ∧
    getConcurrencyLimit [avg150File] = 1 ∧
    getConcurrencyLimit [avg1File] = 4 := by
  refine ⟨rfl, ?_, ?_⟩
  · norm_num [getConcurrencyLimit, avgSize, totalSize, avg150File, MiB]
  · norm_num [getConcurrencyLimit, avgSize, totalSize, avg1File, MiB]

/-- C8 witness: the single-file 150 MiB batch. -/
theorem getConcurrencyLimit_matches_table_witness :
    ([avg150File] : List UFile) ≠ [] ∧
    (getConcurrencyLimit [avg150File] = specConcurrencyTable (avgSize [avg150File]) ∧
     getConcurrencyLimit [avg150File] = 1 ∧
     getConcurrencyLimit [avg1File] = 4) :=
  ⟨List.cons_ne_nil _ _,
   getConcurrencyLimit_matches_table [avg150File] (List.cons_ne_nil _ _)⟩

/-- C9: a file whose upstream envelope is `ok:false`, or lacks a recognized
media branch, on every attempt settles as a Failure; a failure carries no
`kvOperation`, so the separation step harvests no KV write for it; and in the
unnamed-file variant such a response yields `null` with no KV write either. -/
theorem upstream_not_ok_failure_no_kv (uploadFile : UFile) (requestOrigin : String)
    (resps : Nat → HttpResponse) (imgUrl : Option (KVPut → Except String Unit))
    (h : ∀ n, (resps n).data.ok = false ∨ getFileInfo (resps n).data = none) :
    (∃ e, (fileTask uploadFile requestOrigin (fun n => .ok (resps n))).1 =
        some (UploadResultJS.failure e uploadFile.name) ∧
      separateResultsAndKVOps [some (UploadResultJS.failure e uploadFile.name)] true =
        ⟨[], []⟩) ∧
    processFileUpload_v0 uploadFile requestOrigin (.ok (resps 1)) imgUrl =
      (none, []) := by
  constructor
  · obtain ⟨e1, h1⟩ :=
      processFileUpload_error_of_bad uploadFile requestOrigin (resps 1) (h 1)
    obtain ⟨e2, h2⟩ :=
      processFileUpload_error_of_bad uploadFile requestOrigin (resps 2) (h 2)
    refine ⟨e2, ?_, rfl⟩
    rw [fileTask_failure_of_two_errors uploadFile requestOrigin
      (fun n => .ok (resps n)) e1 e2 h1 h2]
  · have hinfo : getFileInfo (resps 1).data = none := by
      rcases h 1 with h' | h'
      · simp [getFileInfo, h']
      · exact h'
    cases hok : (resps 1).ok with
    | false => simp [processFileUpload_v0, hok]
    | true => simp [processFileUpload_v0, hok, hinfo]

/-- C9 witness: the constant HTTP 503 upstream (envelope `ok:false`). -/
theorem upstream_not_ok_failure_no_kv_witness :
    (∀ n : Nat, ((fun _ => resp503) n : HttpResponse).data.ok = false ∨
      getFileInfo ((fun _ => resp503) n : HttpResponse).data = none) ∧
    ((∃ e, (fileTask file0 "https://example.com"
          (fun n => .ok ((fun _ => resp503) n))).1 =
        some (UploadResultJS.failure e file0.name) ∧
      separateResultsAndKVOps [some (UploadResultJS.failure e file0.name)] true =
        ⟨[], []⟩) ∧
    processFileUpload_v0 file0 "https://example.com" (.ok ((fun _ => resp503) 1))
      none = (none, [])) :=
  ⟨fun _ => Or.inl rfl,
   upstream_not_ok_failure_no_kv file0 "https://example.com" (fun _ => resp503) none
     (fun _ => Or.inl rfl)⟩

/-- C10: with the `env.img_url` binding absent, no KV write is attempted in
any variant, and the outcome and response are identical to a present binding
whose writes succeed: the KV step is skipped, not failed.  (Main variant: the
store is untouched and the response does not depend on the binding at all;
unnamed-file variant and the second `upload.js` variant: no entry is written
and the settled value equals the one produced with a succeeding binding.) -/
theorem kv_binding_absent_skips (parse : Except String (List UFile))
    (requestOrigin : String) (fetch : UFile → Nat → Except String HttpResponse)
    (store : KVStore) (putOk : KVPut → Bool) (uploadFile : UFile)
    (fetchResult : Except String HttpResponse) :
    (onRequestPost parse requestOrigin fetch none store).2 = store ∧
    (onRequestPost parse requestOrigin fetch none store).1 =
      (onRequestPost parse requestOrigin fetch (some putOk) store).1 ∧
    (processFileUpload_v0 uploadFile requestOrigin fetchResult none).2 = [] ∧
    (processFileUpload_v0 uploadFile requestOrigin fetchResult none).1 =
      (processFileUpload_v0 uploadFile requestOrigin fetchResult
        (some (fun _ => .ok ()))).1 ∧
    (uploadFileToTelegram uploadFile fetchResult none).2 = [] ∧
    (uploadFileToTelegram uploadFile fetchResult none).1 =
      (uploadFileToTelegram uploadFile fetchResult (some (fun _ => .ok ()))).1 := by
  refine ⟨?_, ?_, ?_, ?_, ?_, ?_⟩
  · cases parse with
    | error e => rfl
    | ok files =>
      simp only [onRequestPost]
      split_ifs <;> rfl
  · cases parse with
    | error e => rfl
    | ok files =>
      simp only [onRequestPost]
      split_ifs <;> try rfl
      simp only [Prod.mk.injEq, HttpOut.mk.injEq, RespBody.success.injEq, true_and]
      rw [separate_successfulUploads_indep _ (none : Option (KVPut → Bool)).isSome
        (some putOk).isSome]
  · rcases fetchResult with e | resp
    · rfl
    · simp only [processFileUpload_v0]
      split
      · rfl
      · split <;> rfl
  · rcases fetchResult with e | resp
    · rfl
    · simp only [processFileUpload_v0]
      split
      · rfl
      · split <;> rfl
  · rcases fetchResult with e | resp
    · rfl
    · simp only [uploadFileToTelegram]
      split
      · rfl
      · split <;> rfl
  · rcases fetchResult with e | resp
    · rfl
    · simp only [uploadFileToTelegram]
      split
      · rfl
      · split <;> rfl

end TelegraphImage
